import Mathlib

/-!
Shallow embedding of the `lockfile` Go package: a cross-process mutual
exclusion primitive built on filesystem lock files.

The embedding models:
- the Go error values the package manipulates (`GoError`), with Go's
  identity-based `switch err` comparison mapped to structural equality on
  distinct constructors (sentinel errors such as `os.ErrExist` are unique
  values; errors built by `fmt.Errorf` or returned as `*os.PathError` are
  fresh values never identical to a sentinel);
- `IsTemporary` (temporary.go), parameterised by `runtime.GOOS`;
- the POSIX-variant `Create` loop (file_linux.go) as a step function over
  an environment of syscall outcomes, with fuel for the retry loop, which
  additionally reports the list of file descriptors left open at return;
- the POSIX-variant and Windows-variant `File.Close`, reporting the trace
  of filesystem / descriptor operations performed;
- `randomBackoff` and the `WaitCtx` retry loop (wait.go), with the random
  draw and the select outcomes (context-done vs timer) supplied as inputs.
-/

namespace Lockfile

/-- A raw `syscall.Errno` value. `eWOULDBLOCK` is the one the code
distinguishes; all others are carried by their number. -/
inductive Errno where
  | eWOULDBLOCK
  | other (n : Nat)
deriving DecidableEq, Repr

/-- Go error values as the package observes them. Distinct constructors are
distinct Go values under `==` / `switch` comparison. `errExist`,
`errPermission` and `errClosed` are the sentinels `os.ErrExist`,
`os.ErrPermission` and `os.ErrClosed`. `pathError` is a `*os.PathError`
returned by `os` functions (never identical to a sentinel). `wrapped` is a
`fmt.Errorf` value with a `%w` argument; `errorString` is a `fmt.Errorf`
value without one. `errnoErr` is a raw `syscall.Errno` returned as an
error. `ctxCanceled` is the context cancellation error (`ctx.Err()`). -/
inductive GoError where
  | errExist
  | errPermission
  | errClosed
  | errnoErr (e : Errno)
  | pathError (op : String) (path : String) (e : Errno)
  | wrapped (msg : String) (inner : GoError)
  | errorString (msg : String)
  | ctxCanceled
deriving DecidableEq, Repr

/-- Function `IsTemporary` from temporary.go. `goos` is `runtime.GOOS`; the error
argument is `none` for a nil error. The Go `switch err` compares by
identity, so only the exact sentinel values match. -/
def IsTemporary (goos : String) (err : Option GoError) : Bool :=
  match err with
  | some GoError.errExist => true
  | some GoError.errPermission => goos == "windows"
  | _ => false

/-- Function `randomBackoff` from wait.go, in milliseconds. `rand.IntN n` is modelled
as `draw % n` for an arbitrary draw from the random source (for draws
already below the bound it is the identity, so a uniform draw yields a
uniform result). -/
def randomBackoff (attempt : Nat) (draw : Nat) : Nat :=
  let a := if attempt > 99 then 99 else attempt
  draw % ((1 + a) * 10)

/-- The ceiling of `randomBackoff` for a given attempt: results lie in
`[0, backoffBound attempt)`. -/
def backoffBound (attempt : Nat) : Nat :=
  (min attempt 99 + 1) * 10

/-- The result of `fi.Stat()` on the POSIX variant: size, whether
`fi.Sys().(*syscall.Stat_t)` yields a non-nil `*syscall.Stat_t`, the link
count, and the device / inode identity used by `os.SameFile`. -/
structure FileStat where
  size : Int
  sysOk : Bool
  nlink : Nat
  dev : Nat
  ino : Nat
deriving DecidableEq, Repr

/-- Predicate `os.SameFile` on the POSIX variant: same device and inode. -/
def sameFile (a b : FileStat) : Bool :=
  a.dev == b.dev && a.ino == b.ino

/-- Outcomes of the syscalls the POSIX `Create` performs on its n-th loop
iteration. `openErr n = none` means `os.OpenFile` succeeded, returning
descriptor `fd n`; a failure is the `*os.PathError` it returns. Likewise
`flockErr` for `syscall.Flock` (a raw errno) and `statErr` for
`file.Stat()` (a `*os.PathError`), with `stat n` the stat result on
success. -/
structure CreateEnv where
  openErr : Nat → Option Errno
  fd : Nat → Nat
  flockErr : Nat → Option Errno
  statErr : Nat → Option Errno
  stat : Nat → FileStat

/-- One iteration of the POSIX `Create` loop ends by returning a `File`
wrapping the locked descriptor, returning an error, or restarting the
loop (the zero-link-count race). -/
inductive StepResult where
  | success (fd : Nat)
  | failure (e : GoError)
  | retry
deriving DecidableEq, Repr

/-- The error `fmt.Errorf("failed to stat lock file \x22%s\x22 after
creation: %w", path, err)` built by `Create`. -/
def statFailErr (path : String) (e : Errno) : GoError :=
  GoError.wrapped ("failed to stat lock file \"" ++ path ++ "\" after creation")
    (GoError.pathError "stat" path e)

/-- The error `fmt.Errorf("the lock file \x22%s\x22 is not empty", path)`
built by `Create` when the locked file has nonzero size. -/
def notEmptyErr (path : String) : GoError :=
  GoError.errorString ("the lock file \"" ++ path ++ "\" is not empty")

/-- The error built by `Create` when `fi.Sys()` is not a usable
`*syscall.Stat_t`. -/
def badSysErr (path : String) : GoError :=
  GoError.errorString
    ("the os.Stat call for lock file \"" ++ path ++ "\" returned an unexpected data type")

/-- One iteration of the POSIX `Create` loop (file_linux.go), translated
branch for branch. The second component lists the descriptors opened by
this iteration and not closed before it returns or restarts: the success
path keeps its descriptor open on purpose (it backs the `File`), and the
nonzero-size error path returns without calling `file.Close()`. -/
def stepCreate (env : CreateEnv) (path : String) (n : Nat) : StepResult × List Nat :=
  match env.openErr n with
  | some e => (StepResult.failure (GoError.pathError "open" path e), [])
  | none =>
    let fd := env.fd n
    match env.flockErr n with
    | some e =>
      if e = Errno.eWOULDBLOCK then
        (StepResult.failure GoError.errExist, [])
      else
        (StepResult.failure (GoError.errnoErr e), [])
    | none =>
      match env.statErr n with
      | some e => (StepResult.failure (statFailErr path e), [])
      | none =>
        let fi := env.stat n
        if fi.size ≠ 0 then
          (StepResult.failure (notEmptyErr path), [fd])
        else if !fi.sysOk then
          (StepResult.failure (badSysErr path), [])
        else if fi.nlink = 0 then
          (StepResult.retry, [])
        else
          (StepResult.success fd, [fd])

/-- The POSIX `Create` loop starting at iteration `n`, with fuel bounding
the number of iterations (the Go loop has no bound; `none` means the loop
did not finish within `fuel` iterations). On termination it yields the
returned value (`Except.ok fd` for a constructed `File` wrapping `fd`,
`Except.error e` for an error return) together with the descriptors left
open. -/
def createLoop (env : CreateEnv) (path : String) :
    Nat → Nat → Option (Except GoError Nat × List Nat)
  | 0, _ => none
  | fuel + 1, n =>
    match stepCreate env path n with
    | (StepResult.success fd, fds) => some (Except.ok fd, fds)
    | (StepResult.failure e, fds) => some (Except.error e, fds)
    | (StepResult.retry, _) => createLoop env path fuel (n + 1)

/-- The POSIX `Create` (file_linux.go): run the loop from iteration 0. -/
def Create (env : CreateEnv) (path : String) (fuel : Nat) :
    Option (Except GoError Nat × List Nat) :=
  createLoop env path fuel 0

/-- Filesystem / descriptor operations `File.Close` may perform, in order:
stat of the open descriptor, stat of the path, unlink of the path, close
of the descriptor. -/
inductive FsAction where
  | fstatFd
  | statPath
  | unlink
  | closeFd
deriving DecidableEq, Repr

/-- Outcomes of the syscalls the POSIX `File.Close` performs: `f.file.Stat()`,
`os.Stat(path)`, `syscall.Unlink(path)` and `f.file.Close()`. `none`
means success; stat results on success are `fstat` and `pathStat`. -/
structure CloseEnv where
  fstatErr : Option Errno
  fstat : FileStat
  pathStatErr : Option Errno
  pathStat : FileStat
  unlinkErr : Option Errno
  closeErr : Option Errno

/-- The error built by the POSIX `File.Close` when the stat of the open
descriptor and the stat of the path disagree (`os.SameFile` false): the
lock file was moved or replaced. The spec calls this the `Integrity`
error. -/
def movedErr (path : String) : GoError :=
  GoError.errorString
    ("failed to unlink lock file \"" ++ path ++ "\": the file was moved or deleted")

/-- The error wrapping a failed `f.file.Stat()` in the POSIX `File.Close`. -/
def closeFstatErr (path : String) (e : Errno) : GoError :=
  GoError.wrapped ("failed to stat opened lock file \"" ++ path ++ "\" before deletion")
    (GoError.pathError "stat" path e)

/-- The error wrapping a failed `os.Stat(path)` in the POSIX `File.Close`. -/
def closePathStatErr (path : String) (e : Errno) : GoError :=
  GoError.wrapped ("failed to stat existing lock file \"" ++ path ++ "\" by its before deletion")
    (GoError.pathError "stat" path e)

/-- The error wrapping a failed `syscall.Unlink(path)` in the POSIX
`File.Close`. -/
def unlinkFailErr (path : String) (e : Errno) : GoError :=
  GoError.wrapped ("failed to unlink lock file \"" ++ path ++ "\"")
    (GoError.errnoErr e)

namespace Posix

/-- The part of the POSIX `File.Close` (file_linux.go) that runs between the
registration of the deferred close and any return: stat the open
descriptor, stat the path, compare identities with `os.SameFile`, and
unlink on a match. Returns the function's pending error value and the
trace of operations performed, in order. -/
def closeBody (env : CloseEnv) (path : String) : Option GoError × List FsAction :=
  match env.fstatErr with
  | some e => (some (closeFstatErr path e), [FsAction.fstatFd])
  | none =>
    match env.pathStatErr with
    | some e => (some (closePathStatErr path e), [FsAction.fstatFd, FsAction.statPath])
    | none =>
      if sameFile env.fstat env.pathStat then
        match env.unlinkErr with
        | some e =>
          (some (unlinkFailErr path e),
            [FsAction.fstatFd, FsAction.statPath, FsAction.unlink])
        | none =>
          (none, [FsAction.fstatFd, FsAction.statPath, FsAction.unlink])
      else
        (some (movedErr path), [FsAction.fstatFd, FsAction.statPath])

/-- The POSIX `File.Close` (file_linux.go). `fileOpen` is whether `f.file`
is non-nil (the mutex serialises calls, so each call sees a consistent
flag). Returns the error, the new `fileOpen` flag, and the trace of
filesystem / descriptor operations performed, in order. The deferred
function closes the descriptor last, sets `f.file = nil`, and lets a
close failure surface only when no earlier error occurred. -/
def close (env : CloseEnv) (path : String) (fileOpen : Bool) :
    Option GoError × Bool × List FsAction :=
  if !fileOpen then
    (some GoError.errClosed, false, [])
  else
    let body := closeBody env path
    let finalErr : Option GoError :=
      match body.1 with
      | some e => some e
      | none => env.closeErr.map fun e => GoError.pathError "close" path e
    (finalErr, false, body.2 ++ [FsAction.closeFd])

end Posix

namespace Windows

/-- The Windows `File.Close`: closing the handle is all it does (the
delete-on-close attribute removes the file). `closeErr` is the outcome of
`f.file.Close()`. -/
def close (closeErr : Option Errno) (path : String) (fileOpen : Bool) :
    Option GoError × Bool × List FsAction :=
  if !fileOpen then
    (some GoError.errClosed, false, [])
  else
    (closeErr.map fun e => GoError.pathError "close" path e, false, [FsAction.closeFd])

end Windows

/-- The outcome of one `select` in the `WaitCtx` loop: the context's done
channel fired first, or the backoff timer fired first. -/
inductive WaitEvent where
  | ctxDone
  | timerFired
deriving DecidableEq, Repr

/-- The return value of `WaitCtx`: a `File` wrapping `fd`, an error from
`Create`, or the context's cancellation error `ctx.Err()`. `attempts`
counts the `Create` calls made before returning. -/
inductive WaitOutcome where
  | acquired (fd : Nat) (attempts : Nat)
  | failed (e : GoError) (attempts : Nat)
  | cancelled (attempts : Nat)
deriving DecidableEq, Repr

/-- The retry loop of `WaitCtx` (wait.go), after the first `Create` call
failed with a temporary error. `oracle k` is the result of the k-th
`Create` call (0-indexed); `events k` is the outcome of the `select`
performed when `k` calls have been made so far. `calls` counts the
`Create` calls already made; fuel bounds the iterations (`none` means the
loop ran past it). -/
def waitLoop (goos : String) (oracle : Nat → Except GoError Nat)
    (events : Nat → WaitEvent) : Nat → Nat → Option WaitOutcome
  | 0, _ => none
  | fuel + 1, calls =>
    match events calls with
    | WaitEvent.ctxDone => some (WaitOutcome.cancelled calls)
    | WaitEvent.timerFired =>
      match oracle calls with
      | Except.ok fd => some (WaitOutcome.acquired fd (calls + 1))
      | Except.error e =>
        if IsTemporary goos (some e) then
          waitLoop goos oracle events fuel (calls + 1)
        else
          some (WaitOutcome.failed e (calls + 1))

/-- Function `WaitCtx` (wait.go): call `Create` once, return on success or on a
non-temporary error, and otherwise enter the retry loop. -/
def waitCtx (goos : String) (oracle : Nat → Except GoError Nat)
    (events : Nat → WaitEvent) (fuel : Nat) : Option WaitOutcome :=
  match oracle 0 with
  | Except.ok fd => some (WaitOutcome.acquired fd 1)
  | Except.error e =>
    if IsTemporary goos (some e) then
      waitLoop goos oracle events fuel 1
    else
      some (WaitOutcome.failed e 1)

/-- A concrete close environment in which both stats succeed but report
different inodes: the lock file was replaced underneath the handle. -/
def envMoved : CloseEnv :=
  ⟨none, ⟨0, true, 1, 1, 2⟩, none, ⟨0, true, 1, 1, 3⟩, none, none⟩

/-- A concrete close environment in which every operation succeeds and both
stats agree. -/
def envCloseOk : CloseEnv :=
  ⟨none, ⟨0, true, 1, 1, 2⟩, none, ⟨0, true, 1, 1, 2⟩, none, none⟩

/-- A concrete create environment: the open and flock succeed on descriptor
3, and the stat reports a nonzero size (a corrupt lock file). -/
def envNotEmpty : CreateEnv :=
  ⟨fun _ => none, fun _ => 3, fun _ => none, fun _ => none, fun _ => ⟨1, true, 1, 0, 0⟩⟩

/-- A concrete create environment modelling a stale lock file: the path
already exists, so the open succeeds on the existing file (descriptor 7),
no live process holds the advisory lock so the flock succeeds, and the
stat reports an empty, linked file. -/
def envStale : CreateEnv :=
  ⟨fun _ => none, fun _ => 7, fun _ => none, fun _ => none, fun _ => ⟨0, true, 1, 0, 0⟩⟩

/-- A concrete create environment in which another holder owns the advisory
lock: the flock fails with EWOULDBLOCK on every iteration. -/
def envHeld : CreateEnv :=
  ⟨fun _ => none, fun _ => 5, fun _ => some Errno.eWOULDBLOCK, fun _ => none,
    fun _ => ⟨0, true, 1, 0, 0⟩⟩

/-- A concrete Create oracle for the wait loop: the first call finds the
lock held, every later call succeeds with descriptor 4. -/
def oracleRetryThenOk : Nat → Except GoError Nat :=
  fun k => if k = 0 then Except.error GoError.errExist else Except.ok 4

/-- A concrete event sequence for the wait loop: the backoff timer always
fires before the context is cancelled. -/
def eventsTimerAlways : Nat → WaitEvent :=
  fun _ => WaitEvent.timerFired

/-- Helper: the bound used inside `randomBackoff` is `backoffBound`. -/
theorem randomBackoff_bound_eq (n : Nat) :
    (1 + (if n > 99 then 99 else n)) * 10 = backoffBound n := by
  simp only [backoffBound, Nat.min_def]
  split <;> split <;> omega

/-- Helper: the backoff bound is positive. -/
theorem backoffBound_pos (n : Nat) : 0 < backoffBound n := by
  simp only [backoffBound]
  omega

/-- C1: IsTemporary returns true for the AlreadyHeld / AlreadyExists error
(os.ErrExist) on both platform variants; returns true for the
PermissionDenied error (os.ErrPermission) exactly when the
exclusive-handle (windows) variant is in use and false elsewhere; and
returns false for every other error value (Integrity, corruption, I/O
failures, AlreadyClosed). -/
theorem isTemporary_classification :
    (∀ goos, IsTemporary goos (some GoError.errExist) = true) ∧
    (∀ goos, IsTemporary goos (some GoError.errPermission) = (goos == "windows")) ∧
    (∀ goos e, e ≠ GoError.errExist → e ≠ GoError.errPermission →
      IsTemporary goos (some e) = false) := by
  refine ⟨fun _ => rfl, fun _ => rfl, ?_⟩
  intro goos e h1 h2
  cases e <;> first
    | rfl
    | exact absurd rfl h1
    | exact absurd rfl h2

/-- C1 witness: concrete instances — Integrity and AlreadyClosed errors are
permanent on both variants. -/
theorem isTemporary_classification_witness :
    IsTemporary "linux" (some GoError.errClosed) = false ∧
    IsTemporary "windows" (some (movedErr "test.lock")) = false :=
  ⟨isTemporary_classification.2.2 "linux" GoError.errClosed
      (by decide) (by decide),
    isTemporary_classification.2.2 "windows" (movedErr "test.lock")
      (by decide) (by decide)⟩

/-- C10: IsTemporary(nil) returns false, and IsTemporary distinguishes
errors by identity rather than by unwrapping: any error that merely wraps
os.ErrExist or os.ErrPermission without being that exact sentinel value —
for example the wrapped stat-failure error Create builds with fmt.Errorf
and %w — is classified as permanent (false). -/
theorem isTemporary_nil_and_identity :
    (∀ goos, IsTemporary goos none = false) ∧
    (∀ goos msg inner, IsTemporary goos (some (GoError.wrapped msg inner)) = false) ∧
    (∀ goos path e, IsTemporary goos (some (statFailErr path e)) = false) :=
  ⟨fun _ => rfl, fun _ _ _ => rfl, fun _ _ _ => rfl⟩

/-- C8: for every attempt n and every random draw, randomBackoff(n) is a
whole number of milliseconds in the integer interval
[0, (min(n,99)+1) * 10): the result is always below that bound, every
value below the bound is attained (a draw below the bound passes through
unchanged, so a uniform draw yields a uniform delay), every delay is
strictly below 1000 ms, and the ceiling reaches its maximum of 1000 at
attempt 99 and stays constant for all larger attempts. -/
theorem randomBackoff_spec :
    (∀ n draw, randomBackoff n draw < backoffBound n) ∧
    (∀ n draw, draw < backoffBound n → randomBackoff n draw = draw) ∧
    (∀ n draw, randomBackoff n draw < 1000) ∧
    backoffBound 99 = 1000 ∧
    (∀ n, 99 ≤ n → backoffBound n = backoffBound 99) ∧
    (∀ n, backoffBound n ≤ 1000) := by
  have hb : ∀ n, backoffBound n ≤ 1000 := by
    intro n
    simp only [backoffBound, Nat.min_def]
    split <;> omega
  have h1 : ∀ n draw, randomBackoff n draw < backoffBound n := by
    intro n draw
    simp only [randomBackoff]
    rw [randomBackoff_bound_eq]
    exact Nat.mod_lt _ (backoffBound_pos n)
  refine ⟨h1, ?_, ?_, by decide, ?_, hb⟩
  · intro n draw h
    simp only [randomBackoff]
    rw [randomBackoff_bound_eq]
    exact Nat.mod_eq_of_lt h
  · intro n draw
    exact lt_of_lt_of_le (h1 n draw) (hb n)
  · intro n h
    simp only [backoffBound, Nat.min_def]
    split <;> split <;> omega

/-- C8 witness: a draw below the bound passes through unchanged, and a huge
attempt still yields a delay below 1000 ms. -/
theorem randomBackoff_spec_witness :
    randomBackoff 5 17 = 17 ∧ randomBackoff 200 987654 < 1000 :=
  ⟨randomBackoff_spec.2.1 5 17 (by decide), randomBackoff_spec.2.2.1 200 987654⟩

/-- Helper: the deferred descriptor close never appears in the trace of the
pre-defer body of the POSIX Close. -/
theorem closeFd_not_in_closeBody (env : CloseEnv) (path : String) :
    FsAction.closeFd ∉ (Posix.closeBody env path).2 := by
  rcases hf : env.fstatErr with _ | e
  · rcases hp : env.pathStatErr with _ | e
    · cases hs : sameFile env.fstat env.pathStat
      · simp [Posix.closeBody, hf, hp, hs]
      · rcases hu : env.unlinkErr with _ | e <;>
          simp [Posix.closeBody, hf, hp, hs, hu]
    · simp [Posix.closeBody, hf, hp]
  · simp [Posix.closeBody, hf]

/-- C4: on both platform variants, a Close call on an already-closed handle
returns AlreadyClosed (os.ErrClosed), performs no filesystem or
descriptor I/O, and leaves the handle closed — so the second and every
subsequent call behaves that way; and the first call marks the handle
closed (file set to nil, descriptor closed) even when it returns an
error. -/
theorem close_already_closed :
    (∀ env path, Posix.close env path false = (some GoError.errClosed, false, [])) ∧
    (∀ e path, Windows.close e path false = (some GoError.errClosed, false, [])) ∧
    (∀ env path, (Posix.close env path true).2.1 = false ∧
      FsAction.closeFd ∈ (Posix.close env path true).2.2) ∧
    (∀ e path, (Windows.close e path true).2.1 = false ∧
      FsAction.closeFd ∈ (Windows.close e path true).2.2) := by
  refine ⟨fun _ _ => rfl, fun _ _ => rfl, ?_, ?_⟩
  · intro env path
    refine ⟨rfl, ?_⟩
    rw [show (Posix.close env path true).2.2 =
      (Posix.closeBody env path).2 ++ [FsAction.closeFd] from rfl]
    exact List.mem_append_right _ (List.mem_singleton_self _)
  · intro e path
    exact ⟨rfl, List.mem_singleton_self _⟩

/-- C5: on the POSIX variant, when both stats succeed but the open
descriptor and the path do not refer to the same underlying file
(different device/inode identity), the first Close returns the Integrity
(moved-or-deleted) error and unlinks nothing: the only operations
performed are the two stats and the descriptor close. -/
theorem close_integrity_no_unlink :
    ∀ env path, env.fstatErr = none → env.pathStatErr = none →
      sameFile env.fstat env.pathStat = false →
      Posix.close env path true =
        (some (movedErr path), false,
          [FsAction.fstatFd, FsAction.statPath, FsAction.closeFd]) := by
  intro env path h1 h2 h3
  simp [Posix.close, Posix.closeBody, h1, h2, h3]

/-- C5 witness: the integrity branch evaluated on a concrete environment in
which the path's inode differs from the descriptor's. -/
theorem close_integrity_no_unlink_witness :
    Posix.close envMoved "test.lock" true =
      (some (movedErr "test.lock"), false,
        [FsAction.fstatFd, FsAction.statPath, FsAction.closeFd]) :=
  close_integrity_no_unlink envMoved "test.lock" rfl rfl rfl

/-- C6: on the POSIX variant, every first Close performs the descriptor
close, the descriptor close is the last operation and occurs exactly
once, and therefore any unlink performed happens strictly before the
descriptor is closed. -/
theorem close_unlink_before_closeFd :
    ∀ env path, ∃ pre,
      (Posix.close env path true).2.2 = pre ++ [FsAction.closeFd] ∧
      FsAction.closeFd ∉ pre ∧
      (FsAction.unlink ∈ (Posix.close env path true).2.2 → FsAction.unlink ∈ pre) := by
  intro env path
  refine ⟨(Posix.closeBody env path).2, rfl, closeFd_not_in_closeBody env path, ?_⟩
  intro hmem
  rw [show (Posix.close env path true).2.2 =
    (Posix.closeBody env path).2 ++ [FsAction.closeFd] from rfl] at hmem
  rcases List.mem_append.mp hmem with h | h
  · exact h
  · exact absurd (List.mem_singleton.mp h) (by decide)

/-- C6 witness: on a fully successful close the trace is the two stats, the
unlink, then the descriptor close. -/
theorem close_unlink_before_closeFd_witness :
    ∃ pre, (Posix.close envCloseOk "test.lock" true).2.2 = pre ++ [FsAction.closeFd] ∧
      FsAction.closeFd ∉ pre ∧
      (FsAction.unlink ∈ (Posix.close envCloseOk "test.lock" true).2.2 →
        FsAction.unlink ∈ pre) :=
  close_unlink_before_closeFd envCloseOk "test.lock"

/-- Helper: one-step unfolding of the Create loop at positive fuel. -/
theorem createLoop_succ (env : CreateEnv) (path : String) (fuel n : Nat) :
    createLoop env path (fuel + 1) n =
      match stepCreate env path n with
      | (StepResult.success fd, fds) => some (Except.ok fd, fds)
      | (StepResult.failure e, fds) => some (Except.error e, fds)
      | (StepResult.retry, _) => createLoop env path fuel (n + 1) := rfl

/-- Helper: a retrying iteration passes to the next iteration. -/
theorem createLoop_retry (env : CreateEnv) (path : String) (fuel n : Nat)
    (h : (stepCreate env path n).1 = StepResult.retry) :
    createLoop env path (fuel + 1) n = createLoop env path fuel (n + 1) := by
  have hpair : stepCreate env path n = (StepResult.retry, (stepCreate env path n).2) := by
    rw [← h]
  rw [createLoop_succ, hpair]

/-- Helper: a failing iteration ends the loop with its error and its list of
leaked descriptors. -/
theorem createLoop_fail (env : CreateEnv) (path : String) (fuel n : Nat)
    (e : GoError) (fds : List Nat)
    (h : stepCreate env path n = (StepResult.failure e, fds)) :
    createLoop env path (fuel + 1) n = some (Except.error e, fds) := by
  rw [createLoop_succ, h]

/-- Helper: a block of retrying iterations shifts the loop's start. -/
theorem createLoop_skip (env : CreateEnv) (path : String) :
    ∀ k fuel n, (∀ m, m < k → (stepCreate env path (n + m)).1 = StepResult.retry) →
      createLoop env path (k + fuel) n = createLoop env path fuel (n + k) := by
  intro k
  induction k with
  | zero => intro fuel n _; simp
  | succ k ih =>
    intro fuel n h
    have h0 : (stepCreate env path n).1 = StepResult.retry := by
      simpa using h 0 (Nat.succ_pos k)
    rw [show k + 1 + fuel = (k + fuel) + 1 by omega]
    rw [createLoop_retry env path (k + fuel) n h0]
    rw [ih fuel (n + 1) ?_]
    · rw [show n + 1 + k = n + (k + 1) by omega]
    · intro m hm
      have hr := h (m + 1) (by omega)
      rw [show n + (m + 1) = n + 1 + m by omega] at hr
      exact hr

/-- Helper: when the first `k` iterations retry and iteration `k` fails, the
whole Create call returns that failure (given enough fuel). -/
theorem createLoop_firstFail (env : CreateEnv) (path : String)
    (k fuel : Nat) (e : GoError) (fds : List Nat)
    (hpre : ∀ m, m < k → (stepCreate env path m).1 = StepResult.retry)
    (hk : stepCreate env path k = (StepResult.failure e, fds))
    (hfuel : k < fuel) :
    Create env path fuel = some (Except.error e, fds) := by
  unfold Create
  rw [show fuel = k + (fuel - k) by omega]
  rw [createLoop_skip env path k (fuel - k) 0 (by simpa using hpre)]
  rw [show (0 + k) = k by omega]
  obtain ⟨f, hf⟩ := Nat.exists_eq_succ_of_ne_zero (show fuel - k ≠ 0 by omega)
  rw [hf]
  exact createLoop_fail env path f k e fds hk

/-- Helper: an iteration of the POSIX Create fails with the os.ErrExist
sentinel exactly when its open succeeded and its flock failed with
EWOULDBLOCK. -/
theorem stepCreate_errExist (env : CreateEnv) (path : String) (n : Nat) :
    (stepCreate env path n).1 = StepResult.failure GoError.errExist ↔
      env.openErr n = none ∧ env.flockErr n = some Errno.eWOULDBLOCK := by
  rcases ho : env.openErr n with _ | e
  · rcases hl : env.flockErr n with _ | e
    · rcases hs : env.statErr n with _ | e
      · by_cases hsz : (env.stat n).size = 0
        · cases hsys : (env.stat n).sysOk
          · simp [stepCreate, ho, hl, hs, hsz, hsys, badSysErr]
          · by_cases hnl : (env.stat n).nlink = 0
            · simp [stepCreate, ho, hl, hs, hsz, hsys, hnl]
            · simp [stepCreate, ho, hl, hs, hsz, hsys, hnl]
        · simp [stepCreate, ho, hl, hs, hsz, notEmptyErr]
      · simp [stepCreate, ho, hl, hs, statFailErr]
    · rcases e with _ | m
      · simp [stepCreate, ho, hl]
      · simp [stepCreate, ho, hl]
  · simp [stepCreate, ho]

/-- Helper: a terminated Create loop returned the os.ErrExist sentinel
exactly when its first non-retrying iteration failed with it. -/
theorem createLoop_errExist_iff (env : CreateEnv) (path : String) :
    ∀ fuel n r, createLoop env path fuel n = some r →
      (r.1 = Except.error GoError.errExist ↔
        ∃ k, (∀ m, m < k → (stepCreate env path (n + m)).1 = StepResult.retry) ∧
          (stepCreate env path (n + k)).1 = StepResult.failure GoError.errExist) := by
  intro fuel
  induction fuel with
  | zero => intro n r h; cases h
  | succ fuel ih =>
    intro n r h
    rw [createLoop_succ] at h
    rcases hstep : stepCreate env path n with ⟨s, fds⟩
    rw [hstep] at h
    cases s with
    | success fd =>
      simp only [Option.some.injEq] at h
      subst h
      simp only [Except.ok.injEq]
      constructor
      · intro hcontra
        exact absurd hcontra (by simp)
      · rintro ⟨k, hpre, hfail⟩
        rcases Nat.eq_zero_or_pos k with hk | hk
        · subst hk
          rw [Nat.add_zero, hstep] at hfail
          exact absurd hfail (by simp)
        · have := hpre 0 hk
          rw [Nat.add_zero, hstep] at this
          exact absurd this (by simp)
    | failure e =>
      simp only [Option.some.injEq] at h
      subst h
      constructor
      · intro heq
        refine ⟨0, fun m hm => absurd hm (by omega), ?_⟩
        rw [Nat.add_zero, hstep]
        simp only [Except.error.injEq] at heq
        rw [heq]
      · rintro ⟨k, hpre, hfail⟩
        rcases Nat.eq_zero_or_pos k with hk | hk
        · subst hk
          rw [Nat.add_zero, hstep] at hfail
          simp only [StepResult.failure.injEq] at hfail
          rw [hfail]
        · have := hpre 0 hk
          rw [Nat.add_zero, hstep] at this
          exact absurd this (by simp)
    | retry =>
      have hiff := ih (n + 1) r h
      rw [hiff]
      constructor
      · rintro ⟨k, hpre, hfail⟩
        refine ⟨k + 1, ?_, ?_⟩
        · intro m hm
          rcases Nat.eq_zero_or_pos m with hm0 | hm0
          · subst hm0
            rw [Nat.add_zero, hstep]
          · obtain ⟨m', rfl⟩ := Nat.exists_eq_succ_of_ne_zero (by omega : m ≠ 0)
            have := hpre m' (by omega)
            rw [show n + 1 + m' = n + (m' + 1) by omega] at this
            exact this
        · have := hfail
          rw [show n + 1 + k = n + (k + 1) by omega] at this
          exact this
      · rintro ⟨k, hpre, hfail⟩
        rcases Nat.eq_zero_or_pos k with hk | hk
        · subst hk
          rw [Nat.add_zero, hstep] at hfail
          exact absurd hfail (by simp)
        · obtain ⟨k', rfl⟩ := Nat.exists_eq_succ_of_ne_zero (by omega : k ≠ 0)
          refine ⟨k', ?_, ?_⟩
          · intro m hm
            have := hpre (m + 1) (by omega)
            rw [show n + (m + 1) = n + 1 + m by omega] at this
            exact this
          · have := hfail
            rw [show n + (k' + 1) = n + 1 + k' by omega] at this
            exact this

/-- C3: on the POSIX variant, Create fails with the AlreadyHeld error
(os.ErrExist) exactly when the non-blocking flock attempt fails with
EWOULDBLOCK because another holder has the advisory lock: an iteration
produces os.ErrExist iff its open succeeded and its flock returned
EWOULDBLOCK, a terminated Create returns os.ErrExist iff its first
non-retrying iteration did so, and Create on a stale zero-length file
whose advisory lock nobody holds succeeds (mere pre-existence of the path
is not a failure). -/
theorem create_alreadyHeld_iff :
    (∀ env path n, (stepCreate env path n).1 = StepResult.failure GoError.errExist ↔
      env.openErr n = none ∧ env.flockErr n = some Errno.eWOULDBLOCK) ∧
    (∀ env path fuel r, Create env path fuel = some r →
      (r.1 = Except.error GoError.errExist ↔
        ∃ k, (∀ m, m < k → (stepCreate env path m).1 = StepResult.retry) ∧
          (stepCreate env path k).1 = StepResult.failure GoError.errExist)) ∧
    Create envStale "test.lock" 1 = some (Except.ok 7, [7]) := by
  refine ⟨stepCreate_errExist, ?_, rfl⟩
  intro env path fuel r h
  have hiff := createLoop_errExist_iff env path fuel 0 r h
  simpa using hiff

/-- C3 witness: with another holder owning the advisory lock, Create
returns os.ErrExist, and the theorem recovers the EWOULDBLOCK cause. -/
theorem create_alreadyHeld_iff_witness :
    ∃ k, (∀ m, m < k → (stepCreate envHeld "test.lock" m).1 = StepResult.retry) ∧
      (stepCreate envHeld "test.lock" k).1 = StepResult.failure GoError.errExist :=
  (create_alreadyHeld_iff.2.1 envHeld "test.lock" 1
    (Except.error GoError.errExist, []) rfl).mp rfl

/-- C2: counter-evidence to all-or-nothing acquisition, evaluated on the
code: when the locked file turns out to have nonzero size, the POSIX
Create returns an error (no File is constructed) but the descriptor
opened in step 1 is left open — the not-empty return path lacks the
file.Close() every sibling error path performs — so a failed acquisition
can leave the process holding the descriptor and its advisory lock. -/
theorem create_notEmpty_leaks_descriptor :
    Create envNotEmpty "test.lock" 1 =
      some (Except.error (notEmptyErr "test.lock"), [3]) ∧
    ([3] : List Nat) ≠ [] :=
  ⟨rfl, by decide⟩

/-- C7: on the POSIX variant, when the locked file's size is nonzero (all
earlier iterations having retried through the link-count race), Create
returns the not-empty error; IsTemporary classifies that error as
permanent on every platform, and WaitCtx surfaces it to the caller after
a single Create call without retrying. -/
theorem create_notEmpty_permanent :
    ∀ env path k fuel,
      (∀ m, m < k → (stepCreate env path m).1 = StepResult.retry) →
      env.openErr k = none → env.flockErr k = none → env.statErr k = none →
      (env.stat k).size ≠ 0 → k < fuel →
      Create env path fuel = some (Except.error (notEmptyErr path), [env.fd k]) ∧
      (∀ goos, IsTemporary goos (some (notEmptyErr path)) = false) ∧
      (∀ goos oracle events fuel2, oracle 0 = Except.error (notEmptyErr path) →
        waitCtx goos oracle events fuel2 =
          some (WaitOutcome.failed (notEmptyErr path) 1)) := by
  intro env path k fuel hpre ho hl hs hsz hk
  have hstep : stepCreate env path k = (StepResult.failure (notEmptyErr path), [env.fd k]) := by
    simp [stepCreate, ho, hl, hs, hsz]
  refine ⟨createLoop_firstFail env path k fuel _ _ hpre hstep hk, fun _ => rfl, ?_⟩
  intro goos oracle events fuel2 hor
  simp [waitCtx, hor, IsTemporary, notEmptyErr]

/-- C7 witness: the corrupt-lock-file environment evaluated concretely: the
error is returned and classified permanent. -/
theorem create_notEmpty_permanent_witness :
    Create envNotEmpty "test.lock" 1 =
      some (Except.error (notEmptyErr "test.lock"), [envNotEmpty.fd 0]) ∧
    IsTemporary "linux" (some (notEmptyErr "test.lock")) = false := by
  have h := create_notEmpty_permanent envNotEmpty "test.lock" 0 1
    (fun m hm => absurd hm (by omega)) rfl rfl rfl (by decide) (by decide)
  exact ⟨h.1, h.2.1 "linux"⟩

/-- Helper: one-step unfolding of the WaitCtx retry loop at positive fuel. -/
theorem waitLoop_succ (goos : String) (oracle : Nat → Except GoError Nat)
    (events : Nat → WaitEvent) (fuel calls : Nat) :
    waitLoop goos oracle events (fuel + 1) calls =
      match events calls with
      | WaitEvent.ctxDone => some (WaitOutcome.cancelled calls)
      | WaitEvent.timerFired =>
        match oracle calls with
        | Except.ok fd => some (WaitOutcome.acquired fd (calls + 1))
        | Except.error e =>
          if IsTemporary goos (some e) then
            waitLoop goos oracle events fuel (calls + 1)
          else
            some (WaitOutcome.failed e (calls + 1)) := rfl

/-- C9: WaitCtx calls Create once and returns immediately on success or on
a non-temporary error; otherwise it enters the retry loop, where each
iteration suspends until cancellation or the backoff timer fires: when
cancellation fires it returns the cancellation outcome — an outcome
distinct from every Create-error and success outcome — without calling
Create again (the result does not depend on the oracle); when the timer
fires it calls Create once more and applies the same
success / permanent / temporary decision. -/
theorem waitCtx_spec :
    (∀ goos oracle events fuel fd, oracle 0 = Except.ok fd →
      waitCtx goos oracle events fuel = some (WaitOutcome.acquired fd 1)) ∧
    (∀ goos oracle events fuel e, oracle 0 = Except.error e →
      IsTemporary goos (some e) = false →
      waitCtx goos oracle events fuel = some (WaitOutcome.failed e 1)) ∧
    (∀ goos oracle events fuel e, oracle 0 = Except.error e →
      IsTemporary goos (some e) = true →
      waitCtx goos oracle events fuel = waitLoop goos oracle events fuel 1) ∧
    (∀ goos oracle oracle2 events fuel calls, events calls = WaitEvent.ctxDone →
      waitLoop goos oracle events (fuel + 1) calls = some (WaitOutcome.cancelled calls) ∧
      waitLoop goos oracle events (fuel + 1) calls =
        waitLoop goos oracle2 events (fuel + 1) calls) ∧
    (∀ goos oracle events fuel calls fd, events calls = WaitEvent.timerFired →
      oracle calls = Except.ok fd →
      waitLoop goos oracle events (fuel + 1) calls =
        some (WaitOutcome.acquired fd (calls + 1))) ∧
    (∀ goos oracle events fuel calls e, events calls = WaitEvent.timerFired →
      oracle calls = Except.error e → IsTemporary goos (some e) = false →
      waitLoop goos oracle events (fuel + 1) calls =
        some (WaitOutcome.failed e (calls + 1))) ∧
    (∀ goos oracle events fuel calls e, events calls = WaitEvent.timerFired →
      oracle calls = Except.error e → IsTemporary goos (some e) = true →
      waitLoop goos oracle events (fuel + 1) calls =
        waitLoop goos oracle events fuel (calls + 1)) ∧
    (∀ a e b fd c, WaitOutcome.cancelled a ≠ WaitOutcome.failed e b ∧
      WaitOutcome.cancelled a ≠ WaitOutcome.acquired fd c) := by
  refine ⟨?_, ?_, ?_, ?_, ?_, ?_, ?_, ?_⟩
  · intro goos oracle events fuel fd h
    simp [waitCtx, h]
  · intro goos oracle events fuel e h ht
    simp [waitCtx, h, ht]
  · intro goos oracle events fuel e h ht
    simp [waitCtx, h, ht]
  · intro goos oracle oracle2 events fuel calls h
    rw [waitLoop_succ, waitLoop_succ, h]
    exact ⟨rfl, rfl⟩
  · intro goos oracle events fuel calls fd h hor
    rw [waitLoop_succ, h, hor]
  · intro goos oracle events fuel calls e h hor ht
    rw [waitLoop_succ, h, hor]
    simp [ht]
  · intro goos oracle events fuel calls e h hor ht
    rw [waitLoop_succ, h, hor]
    simp [ht]
  · intro a e b fd c
    exact ⟨by simp, by simp⟩

/-- C9 witness: with the lock held on the first attempt and the timer
firing before cancellation, the second attempt acquires the lock — two
Create calls in total. -/
theorem waitCtx_spec_witness :
    waitCtx "linux" oracleRetryThenOk eventsTimerAlways 1 =
      some (WaitOutcome.acquired 4 2) := by
  have h3 := waitCtx_spec.2.2.1 "linux" oracleRetryThenOk eventsTimerAlways 1
    GoError.errExist rfl rfl
  have h5 := waitCtx_spec.2.2.2.2.1 "linux" oracleRetryThenOk eventsTimerAlways 0 1 4
    rfl rfl
  exact h3.trans h5

end Lockfile
